import Mathlib

/-!
Verification of the object bridging layer of LiquidCore
(src/LiquidCoreiOS/LiquidCoreiOS/V82JSC/Object.cpp).

The layer emulates the rich v8 object API on top of JavaScriptCore.  We give a
shallow embedding: host JavaScript values become an inductive type `JSVal`, the
host object heap and the per-object instance-metadata side table become the
`World` state record, and each bridged operation of Object.cpp becomes a Lean
function on `World` mirroring the C++ control flow.  The host engine and the
snippet executor V82JSC::exec are not part of the translation unit; snippets
are modelled by their JavaScript semantics on plain data objects (own
properties stored in an association list; prototype inheritance is modelled
only where a claim concerns it, namely the prototype-chain walker).  Where a
host primitive can report an exception through its out-parameter, the bridged
operation takes that outcome as an explicit argument, so the marshaling code
of Object.cpp is modelled as a function of the host result.
-/

/-- A host-engine JavaScript value (JSValueRef).  Payloads other than object
references are opaque; `prim` carries an identifying tag. -/
inductive JSVal where
  | undef : JSVal
  | null : JSVal
  | obj (id : Nat) : JSVal
  | prim (n : Nat) : JSVal
  deriving DecidableEq

/-- Object identity (the JSObjectRef pointer). -/
abbrev ObjId := Nat

/-- Kind of native representation an object has.  ArrayBuffer and
ArrayBufferView objects carry host-level internal storage and are treated
specially by the internal-field operations. -/
inductive ObjKind where
  | plain : ObjKind
  | arrayBuffer : ObjKind
  | arrayBufferView : ObjKind
  deriving DecidableEq

/-- JSVal.isObj: the loop guard proto->IsObject() of the prototype walker. -/
def JSVal.isObj : JSVal → Bool
  | .obj _ => true
  | _ => false

/-- Association-list lookup (first binding wins). -/
def alookup {κ β : Type} [DecidableEq κ] : List (κ × β) → κ → Option β
  | [], _ => none
  | (k, b) :: rest, key => if k = key then some b else alookup rest key

/-- Association-list update: replace the first binding of `key`, or append a
new binding when absent. -/
def aset {κ β : Type} [DecidableEq κ] : List (κ × β) → κ → β → List (κ × β)
  | [], key, b => [(key, b)]
  | (k, x) :: rest, key, b =>
      if k = key then (key, b) :: rest else (k, x) :: aset rest key b

/-- Association-list removal of every binding of `key`. -/
def aremove {κ β : Type} [DecidableEq κ] : List (κ × β) → κ → List (κ × β)
  | [], _ => []
  | (k, x) :: rest, key =>
      if k = key then aremove rest key else (k, x) :: aremove rest key

theorem alookup_aset_self {κ β : Type} [DecidableEq κ]
    (l : List (κ × β)) (key : κ) (b : β) :
    alookup (aset l key b) key = some b := by
  induction l with
  | nil => simp [aset, alookup]
  | cons hd tl ih =>
    obtain ⟨k, x⟩ := hd
    by_cases hk : k = key
    · simp [aset, alookup, hk]
    · simp [aset, alookup, hk, ih]

theorem alookup_aset_other {κ β : Type} [DecidableEq κ]
    (l : List (κ × β)) (key k2 : κ) (b : β) (h : k2 ≠ key) :
    alookup (aset l key b) k2 = alookup l k2 := by
  have hne : ¬ key = k2 := fun hh => h hh.symm
  induction l with
  | nil => simp [aset, alookup, hne]
  | cons hd tl ih =>
    obtain ⟨k, x⟩ := hd
    by_cases hk : k = key
    · subst hk
      simp [aset, alookup, hne]
    · simp [aset, alookup, hk, ih]

/-- Fixed-capacity array write, mirroring a C array store; out-of-bounds
indices leave the list unchanged. -/
def lset {α : Type} : List α → Nat → α → List α
  | [], _, _ => []
  | _ :: rest, 0, a => a :: rest
  | x :: rest, Nat.succ i, a => x :: lset rest i a

/-- Fixed-capacity array read with default, mirroring a C array load. -/
def lgetD {α : Type} : List α → Nat → α → α
  | [], _, d => d
  | x :: _, 0, _ => x
  | _ :: rest, Nat.succ i, d => lgetD rest i d

theorem lgetD_lset_self {α : Type} (l : List α) (i : Nat) (a d : α)
    (h : i < l.length) : lgetD (lset l i a) i d = a := by
  induction l generalizing i with
  | nil => simp at h
  | cons hd tl ih =>
    cases i with
    | zero => simp [lset, lgetD]
    | succ j =>
      simp [lset, lgetD]
      exact ih j (by simpa using Nat.lt_of_succ_lt_succ h)

theorem lgetD_lset_other {α : Type} (l : List α) (i j : Nat) (a d : α)
    (h : j ≠ i) : lgetD (lset l i a) j d = lgetD l j d := by
  induction l generalizing i j with
  | nil => simp [lset]
  | cons hd tl ih =>
    cases i with
    | zero =>
      cases j with
      | zero => exact absurd rfl h
      | succ j2 => simp [lset, lgetD]
    | succ i2 =>
      cases j with
      | zero => simp [lset, lgetD]
      | succ j2 =>
        simp [lset, lgetD]
        exact ih i2 j2 (fun hh => h (by simp [hh]))

/-- One host object: its own data properties, its prototype and its kind.
Property lookup in this model is own-property lookup; the prototype link is
consulted only by the prototype-chain walker. -/
structure HostObject where
  props : List (String × JSVal)
  proto : JSVal
  kind : ObjKind
  deriving DecidableEq

/-- The instance-metadata record (InstanceWrap) of the side table: internal
field slots, the lazily created private-property backing object, the identity
hash and the originating template chain.  The template member chain
(m_object_template->m_constructor_template followed through m_parent links) is
flattened to the list of template identities it visits. -/
structure InstanceWrap where
  m_num_internal_fields : Nat
  m_internal_fields : List (Option JSVal)
  m_private_properties : Option ObjId
  m_hash : Nat
  m_object_template : Option (List Nat)
  deriving DecidableEq

/-- The bridged world: host object heap, instance-metadata side table, and
allocation counters for fresh object identities and identity hashes. -/
structure World where
  objs : List (ObjId × HostObject)
  wraps : List (ObjId × InstanceWrap)
  nextId : Nat
  nextHash : Nat
  deriving DecidableEq

def defaultHostObject : HostObject :=
  { props := [], proto := JSVal.null, kind := ObjKind.plain }

def emptyWorld : World :=
  { objs := [], wraps := [], nextId := 1, nextHash := 1 }

/-- Resolve an object reference in the heap; a reference always denotes a live
object, an absent entry denotes a fresh plain object. -/
def getObj (w : World) (o : ObjId) : HostObject :=
  (alookup w.objs o).getD defaultHostObject

/-- V82JSC::getPrivateInstance.  Modelled from the spec: the side table maps
native object identity to its metadata record (absent when never created). -/
def getPrivateInstance (w : World) (o : ObjId) : Option InstanceWrap :=
  alookup w.wraps o

/-- Store an updated metadata record in the side table. -/
def setWrap (w : World) (o : ObjId) (wr : InstanceWrap) : World :=
  { w with wraps := aset w.wraps o wr }

/-- V82JSC::makePrivateInstance.  Modelled from the spec: creates the metadata
record on first need, assigning a fresh non-zero identity hash; no internal
fields, no private store, no template link. -/
def makePrivateInstance (w : World) (o : ObjId) : World :=
  { w with
    wraps := aset w.wraps o
      { m_num_internal_fields := 0, m_internal_fields := [],
        m_private_properties := none, m_hash := w.nextHash,
        m_object_template := none },
    nextHash := w.nextHash + 1 }

/-- JavaScript assignment `o[k] = v` on a plain data object: the own property
is created or overwritten. -/
def setOwnProp (w : World) (o : ObjId) (k : String) (v : JSVal) : World :=
  let ob := getObj w o
  let ob2 := { ob with props := aset ob.props k v }
  { w with objs := aset w.objs o ob2 }

/-- JavaScript `delete o[k]` on a plain data object (all own properties are
configurable, so deletion succeeds). -/
def delOwnProp (w : World) (o : ObjId) (k : String) : World :=
  let ob := getObj w o
  let ob2 := { ob with props := aremove ob.props k }
  { w with objs := aset w.objs o ob2 }

/-- Whether `o` has an own property `k`. -/
def ownHas (w : World) (o : ObjId) (k : String) : Bool :=
  (alookup (getObj w o).props k).isSome

/-- JavaScript read `o[k]` on a plain data object: undefined when absent. -/
def jsGetOwn (w : World) (o : ObjId) (k : String) : JSVal :=
  (alookup (getObj w o).props k).getD JSVal.undef

/-- The string-keyed own property names of `o`, in insertion order, as
produced by Object.getOwnPropertyNames on a plain data object. -/
def ownKeys (w : World) (o : ObjId) : List String :=
  (getObj w o).props.map Prod.fst

/-- JavaScript loose equality restricted to the values of this model, where
it coincides with identity (there is no NaN in the model). -/
def jsLooseEq (a b : JSVal) : Bool := decide (a = b)

/-!
## Property Access Bridge (Object.cpp lines 13-298)
-/

/-- Object::Set(context, key, value) (Object.cpp:13).  Runs the snippet
`return _3 == (_1[_2] = _3)`: the assignment is performed and the snippet
result is the loose comparison of the value against the assignment
expression; on a script exception the Maybe is Nothing, otherwise it is
Just of the boolean conversion of the snippet result.  On plain data
objects the assignment cannot throw. -/
def Object_Set (w : World) (o : ObjId) (k : String) (v : JSVal) :
    World × Option Bool :=
  (setOwnProp w o k v, some (jsLooseEq v v))

/-- Object::Get(context, key) (Object.cpp:123).  Runs the snippet
`return _1[_2]`; on plain data objects the read cannot throw and yields the
own property value or undefined. -/
def Object_Get (w : World) (o : ObjId) (k : String) : Option JSVal :=
  some (jsGetOwn w o k)

/-- Object::Has(context, key) (Object.cpp:223).  Runs the snippet
`return (_2 in _1)`; in this model the in-operator sees the own
properties (the prototype of a plain model object contributes none). -/
def Object_Has (w : World) (o : ObjId) (k : String) : Option Bool :=
  some (ownHas w o k)

/-- Object::Delete(context, key) (Object.cpp:245).  Runs the snippet
`return delete _1[_2]`; plain own properties are configurable so the
operator yields true. -/
def Object_Delete (w : World) (o : ObjId) (k : String) :
    World × Option Bool :=
  (delOwnProp w o k, some true)

/-- Object::Set(context, index, value) (Object.cpp:36).  Converts the index
to its decimal string and calls JSObjectSetProperty, whose exception
out-parameter is the `hostExn` argument.  The C++ then sets
has_value_ := true unconditionally and value_ := (exception == nullptr):
the returned Maybe is always present, false exactly on a host exception. -/
def Object_SetIndexed (w : World) (o : ObjId) (i : Nat) (v : JSVal)
    (hostExn : Option JSVal) : World × Option Bool :=
  (if hostExn.isNone then setOwnProp w o (toString i) v else w,
   some hostExn.isNone)

/-- Object::Delete(context, index) (Object.cpp:283).  Converts the index to
its decimal string and calls JSObjectDeleteProperty (which returns true for
a configurable property); has_value_ := (exception == nullptr), so the
returned Maybe is Nothing exactly on a host exception. -/
def Object_DeleteIndexed (w : World) (o : ObjId) (i : Nat)
    (hostExn : Option JSVal) : World × Option Bool :=
  (if hostExn.isNone then delOwnProp w o (toString i) else w,
   if hostExn.isNone then some true else none)

/-- Object::Has(context, index) (Object.cpp:267).  JSObjectHasProperty has no
exception out-parameter; the Maybe is always present. -/
def Object_HasIndexed (w : World) (o : ObjId) (i : Nat) : Option Bool :=
  some (ownHas w o (toString i))

/-!
## Unported operations (the assert(0) sites) and the real-property family
-/

/-- Result of invoking a bridged operation: either it computes a value or it
fails fast at an assert(0) site (abnormal termination). -/
inductive Outcome (α : Type) where
  | ok (val : α) : Outcome α
  | abort : Outcome α
  deriving DecidableEq

/-- Object::CreateDataProperty(context, key, value) (Object.cpp:65): assert(0). -/
def Object_CreateDataProperty (w : World) (o : ObjId) (k : String)
    (v : JSVal) : Outcome (Option Bool) := Outcome.abort

/-- Object::CreateDataProperty(context, index, value) (Object.cpp:73): assert(0). -/
def Object_CreateDataProperty_indexed (w : World) (o : ObjId) (i : Nat)
    (v : JSVal) : Outcome (Option Bool) := Outcome.abort

/-- Object::DefineOwnProperty (Object.cpp:87): assert(0). -/
def Object_DefineOwnProperty (w : World) (o : ObjId) (k : String)
    (v : JSVal) (attributes : Nat) : Outcome (Option Bool) := Outcome.abort

/-- Object::DefineProperty (Object.cpp:108): assert(0). -/
def Object_DefineProperty (w : World) (o : ObjId) (k : String) :
    Outcome (Option Bool) := Outcome.abort

/-- Object::GetOwnPropertyDescriptor (Object.cpp:202): assert(0). -/
def Object_GetOwnPropertyDescriptor (w : World) (o : ObjId) (k : String) :
    Outcome (Option JSVal) := Outcome.abort

/-- Object::HasOwnProperty(context, key) (Object.cpp:758): assert(0). -/
def Object_HasOwnProperty (w : World) (o : ObjId) (k : String) :
    Outcome (Option Bool) := Outcome.abort

/-- Object::HasOwnProperty(context, index) (Object.cpp:763): assert(0). -/
def Object_HasOwnProperty_indexed (w : World) (o : ObjId) (i : Nat) :
    Outcome (Option Bool) := Outcome.abort

/-- Object::ObjectProtoToString (Object.cpp:655): assert(0). -/
def Object_ObjectProtoToString (w : World) (o : ObjId) :
    Outcome (Option JSVal) := Outcome.abort

/-- Object::SetIntegrityLevel (Object.cpp:688): assert(0). -/
def Object_SetIntegrityLevel (w : World) (o : ObjId) (level : Nat) :
    Outcome (Option Bool) := Outcome.abort

/-- Object::HasRealNamedProperty (Object.cpp:782).  NOT an assert(0) site:
it runs the snippet
`return Object.getOwnPropertyDescriptor(_1, _2) !== undefined`, which on a
plain data object reports whether `k` is an own property; the Maybe is
Nothing only on a script exception (impossible on plain data objects). -/
def Object_HasRealNamedProperty (w : World) (o : ObjId) (k : String) :
    Outcome (Option Bool) := Outcome.ok (some (ownHas w o k))

/-- Object::HasRealIndexedProperty (Object.cpp:800).  NOT an assert(0) site:
delegates to HasRealNamedProperty with the index value as the key. -/
def Object_HasRealIndexedProperty (w : World) (o : ObjId) (i : Nat) :
    Outcome (Option Bool) := Object_HasRealNamedProperty w o (toString i)

/-- Object::HasRealNamedCallbackProperty (Object.cpp:804): assert(0). -/
def Object_HasRealNamedCallbackProperty (w : World) (o : ObjId)
    (k : String) : Outcome (Option Bool) := Outcome.abort

/-- Object::GetRealNamedPropertyInPrototypeChain (Object.cpp:814): assert(0). -/
def Object_GetRealNamedPropertyInPrototypeChain (w : World) (o : ObjId)
    (k : String) : Outcome (Option JSVal) := Outcome.abort

/-- Object::GetRealNamedPropertyAttributesInPrototypeChain
(Object.cpp:827): assert(0). -/
def Object_GetRealNamedPropertyAttributesInPrototypeChain (w : World)
    (o : ObjId) (k : String) : Outcome (Option Nat) := Outcome.abort

/-- Object::GetRealNamedProperty (Object.cpp:839): assert(0). -/
def Object_GetRealNamedProperty (w : World) (o : ObjId) (k : String) :
    Outcome (Option JSVal) := Outcome.abort

/-- Object::GetRealNamedPropertyAttributes (Object.cpp:850): assert(0). -/
def Object_GetRealNamedPropertyAttributes (w : World) (o : ObjId)
    (k : String) : Outcome (Option Nat) := Outcome.abort

/-!
## Private properties (Object.cpp lines 448-526) and own-name enumeration
-/

/-- Object::HasPrivate (Object.cpp:448).  When the metadata record exists and
carries a private backing store, runs `return _1.hasOwnProperty(_2)` with _1
bound to the object itself; otherwise returns Just false. -/
def Object_HasPrivate (w : World) (o : ObjId) (k : String) : Option Bool :=
  match getPrivateInstance w o with
  | some wr =>
      if wr.m_private_properties.isSome then some (ownHas w o k)
      else some false
  | none => some false

/-- Object::SetPrivate (Object.cpp:467).  Gets or creates the metadata
record, lazily creates the private backing-store object when absent, then
runs the snippet `_1[_2] = _3` with _1 bound to the object itself (not the
backing store), and returns Just true; plain-object assignment cannot
throw. -/
def Object_SetPrivate (w : World) (o : ObjId) (k : String) (v : JSVal) :
    World × Option Bool :=
  let w1 :=
    match getPrivateInstance w o with
    | some _ => w
    | none => makePrivateInstance w o
  let w2 :=
    match getPrivateInstance w1 o with
    | some wr =>
        if wr.m_private_properties.isNone then
          { w1 with
            wraps := aset w1.wraps o
              { wr with m_private_properties := some w1.nextId },
            objs := aset w1.objs w1.nextId defaultHostObject,
            nextId := w1.nextId + 1 }
        else w1
    | none => w1
  (setOwnProp w2 o k v, some true)

/-- Object::DeletePrivate (Object.cpp:489).  When the record and its backing
store exist, runs `return delete _1[_2]` with _1 bound to the object itself
and returns Just true (the snippet result is discarded); otherwise Just
false. -/
def Object_DeletePrivate (w : World) (o : ObjId) (k : String) :
    World × Option Bool :=
  match getPrivateInstance w o with
  | some wr =>
      if wr.m_private_properties.isSome then (delOwnProp w o k, some true)
      else (w, some false)
  | none => (w, some false)

/-- Object::GetPrivate (Object.cpp:508).  When the record and its backing
store exist, runs `return _1[_2]` with _1 bound to the object itself;
otherwise returns the undefined value (a present handle). -/
def Object_GetPrivate (w : World) (o : ObjId) (k : String) : Option JSVal :=
  match getPrivateInstance w o with
  | some wr =>
      if wr.m_private_properties.isSome then some (jsGetOwn w o k)
      else some JSVal.undef
  | none => some JSVal.undef

/-- Object::GetOwnPropertyNames(context) (Object.cpp:562).  Runs the snippet
`return Object.getOwnPropertyNames(_1)`, which lists the string-keyed own
properties; on plain data objects it cannot throw. -/
def Object_GetOwnPropertyNames (w : World) (o : ObjId) :
    Option (List String) :=
  some (ownKeys w o)

/-!
## Prototype (Object.cpp lines 596-648)
-/

/-- Object::SetPrototype (Object.cpp:611).  Calls JSObjectSetPrototype,
which reports no failure, and unconditionally returns Just true. -/
def Object_SetPrototype (w : World) (o : ObjId) (p : JSVal) :
    World × Option Bool :=
  let ob := getObj w o
  ({ w with objs := aset w.objs o { ob with proto := p } }, some true)

/-- Whether the template chain attached to the metadata record of `o`
(m_object_template->m_constructor_template followed through m_parent links)
contains the target template, as scanned by the inner for-loop of
Object::FindInstanceInPrototypeChain (Object.cpp:637). -/
def templateChainContains (w : World) (o : ObjId) (tmpl : Nat) : Bool :=
  match getPrivateInstance w o with
  | some wr =>
      match wr.m_object_template with
      | some chain => chain.contains tmpl
      | none => false
  | none => false

/-- Object::FindInstanceInPrototypeChain (Object.cpp:626).  Walks the
prototype links from the start value while it is an object, returning the
first object whose template chain contains the target, and an empty handle
when a non-object is reached.  The while-loop is rendered with explicit
fuel; the termination theorem shows any fuel exceeding the (finite, acyclic
by host construction) chain length gives the same result. -/
def Object_FindInstanceInPrototypeChain (w : World) (v : JSVal)
    (tmpl : Nat) : Nat → Option ObjId
  | 0 => none
  | Nat.succ fuel =>
      match v with
      | JSVal.obj o =>
          if templateChainContains w o tmpl then some o
          else Object_FindInstanceInPrototypeChain w (getObj w o).proto tmpl fuel
      | _ => none

/-- The finite prototype chain starting at a value: the list of objects the
host prototype walk visits before reaching a non-object.  Its existence is
the host-engine guarantee that prototype chains are finite and acyclic. -/
inductive PrototypeChain (w : World) : JSVal → List ObjId → Prop where
  | base (v : JSVal) (hv : v.isObj = false) : PrototypeChain w v []
  | step (o : ObjId) (rest : List ObjId)
      (hrest : PrototypeChain w (getObj w o).proto rest) :
      PrototypeChain w (JSVal.obj o) (o :: rest)

/-!
## Internal fields (Object.cpp lines 695-731, 972-987)
-/

/-- The default internal-field count of host binary-data objects
(ArrayBuffer::kInternalFieldCount / ArrayBufferView::kInternalFieldCount). -/
def kInternalFieldCountDefault : Nat := 2

/-- Modelled from the spec: GetArrayBufferInfo lives outside this translation
unit; the side table "synthesizes a default field count without an explicit
prior registration" for binary-data objects, i.e. the call registers the
metadata record on demand with the default internal-field count and empty
slots (when no record exists yet). -/
def GetArrayBufferInfo (w : World) (o : ObjId) : World :=
  match getPrivateInstance w o with
  | some _ => w
  | none =>
      { w with
        wraps := aset w.wraps o
          { m_num_internal_fields := kInternalFieldCountDefault,
            m_internal_fields := List.replicate kInternalFieldCountDefault none,
            m_private_properties := none, m_hash := w.nextHash,
            m_object_template := none },
        nextHash := w.nextHash + 1 }

/-- Modelled from the spec: GetArrayBufferViewInfo, the ArrayBufferView
counterpart of GetArrayBufferInfo, registering the record on demand. -/
def GetArrayBufferViewInfo (w : World) (o : ObjId) : World :=
  GetArrayBufferInfo w o

/-- Object::InternalFieldCount (Object.cpp:695).  With a metadata record the
declared count is returned; otherwise an ArrayBufferView synthesizes its
default registration and reports the default count; all other objects report
0.  The possibly updated side table is returned alongside. -/
def Object_InternalFieldCount (w : World) (o : ObjId) : World × Nat :=
  match getPrivateInstance w o with
  | some wr => (w, wr.m_num_internal_fields)
  | none =>
      if (getObj w o).kind = ObjKind.arrayBufferView then
        (GetArrayBufferViewInfo w o, kInternalFieldCountDefault)
      else (w, 0)

/-- Object::SetInternalField (Object.cpp:712).  When no record exists and the
object is an ArrayBuffer (only that kind; ArrayBufferView is not checked
here), the default registration is synthesized first; then, if the index is
below the declared count, the slot is overwritten (the previously protected
reference being released), and otherwise nothing happens. -/
def Object_SetInternalField (w : World) (o : ObjId) (index : Nat)
    (v : JSVal) : World :=
  let w1 :=
    match getPrivateInstance w o with
    | some _ => w
    | none =>
        if (getObj w o).kind = ObjKind.arrayBuffer then GetArrayBufferInfo w o
        else w
  match getPrivateInstance w1 o with
  | some wr =>
      if index < wr.m_num_internal_fields then
        setWrap w1 o
          { wr with m_internal_fields := lset wr.m_internal_fields index (some v) }
      else w1
  | none => w1

/-- Object::SlowGetInternalField (Object.cpp:972).  With a record and an
in-range index, returns the slot value, or the undefined value for a
never-written (null) slot; otherwise returns an empty handle. -/
def Object_SlowGetInternalField (w : World) (o : ObjId) (index : Nat) :
    Option JSVal :=
  match getPrivateInstance w o with
  | some wr =>
      if index < wr.m_num_internal_fields then
        match lgetD wr.m_internal_fields index none with
        | some val => some val
        | none => some JSVal.undef
      else none
  | none => none

/-!
## Accessor installation and invocation (Object.cpp lines 303-428)
-/

/-- What the accessor invocation handler observes of one run of the user
callback (Object.cpp:320-366): the exception the nested TryCatch scope
caught, if any; the value the callback left in the isolate's
scheduled-exception cell, if any (none meaning it left the hole sentinel);
and the return value the getter produced through info.GetReturnValue. -/
structure CallbackEffect where
  throws : Option JSVal
  schedules : Option JSVal
  retval : JSVal
  deriving DecidableEq

/-- The observable outcome of one run of the accessor invocation handler:
the scheduled-exception cell after the handler returns, the value written to
the host exception out-parameter, and the value returned to the host. -/
structure HandlerOutcome where
  postScheduled : Option JSVal
  hostException : Option JSVal
  returned : JSVal
  deriving DecidableEq

/-- The accessor invocation handler lambda of Object::SetAccessor
(Object.cpp:320-366).  `preScheduled` is the scheduled-exception cell at
entry; line 342 overwrites the cell with the hole sentinel without reading
it (the snapshot into held_exception and its restore, lines 341/364, are
commented out in the source).  Zero arguments select the getter, one the
setter (whose produced value is discarded, the ret variable keeping its
Undefined initialization).  After the callback, a caught exception is copied
to the host out-parameter with the cell left as the callback set it;
otherwise a non-hole cell value is moved to the out-parameter and the cell
reset to the hole sentinel. -/
def accessorInvocationHandler (preScheduled : Option JSVal)
    (argumentCount : Nat) (eff : CallbackEffect) : HandlerOutcome :=
  let cellAfterCallback := eff.schedules
  let ret := if argumentCount = 0 then eff.retval else JSVal.undef
  match eff.throws with
  | some e =>
      { postScheduled := cellAfterCallback, hostException := some e,
        returned := ret }
  | none =>
      match cellAfterCallback with
      | some e =>
          { postScheduled := none, hostException := some e, returned := ret }
      | none =>
          { postScheduled := none, hostException := none, returned := ret }

/-- What occupies the setter slot of the property definition installed by
Object::SetAccessorProperty. -/
inductive SetterSlot where
  | accessorFn : SetterSlot
  | replacer : SetterSlot
  deriving DecidableEq

/-- The property definition passed to Object.defineProperty by the snippet of
Object::SetAccessorProperty: an optional getter slot (the bridged accessor
function when present), an optional setter slot, and the configurable
flag. -/
structure PropDefn where
  getSlot : Option Unit
  setSlot : Option SetterSlot
  configurable : Bool
  deriving DecidableEq

/-- The snippet of Object::SetAccessorProperty (Object.cpp:422-427).  It
first runs `delete _1[_2]` (the Bool component records that), then defines
the property: with no setter argument it installs the getter together with a
synthetic setter that deletes the property and reassigns it; with no getter
argument it installs only the setter; otherwise both accessor slots. -/
def defineAccessorSnippet (g s : Option Unit) : Bool × PropDefn :=
  (true,
   if s.isNone then
     { getSlot := g, setSlot := some SetterSlot.replacer, configurable := true }
   else if g.isNone then
     { getSlot := none, setSlot := some SetterSlot.accessorFn,
       configurable := true }
   else
     { getSlot := some (), setSlot := some SetterSlot.accessorFn,
       configurable := true })

/-- Object::SetAccessor (Object.cpp:387-399) passes the wrapped accessor
function as the getter argument exactly when the getter callback pointer is
non-null, and as the setter argument exactly when the setter callback
pointer is non-null, then delegates to SetAccessorProperty. -/
def Object_SetAccessor_install (hasGetter hasSetter : Bool) :
    Bool × PropDefn :=
  defineAccessorSnippet (if hasGetter then some () else none)
    (if hasSetter then some () else none)

/-!
## Claim theorems
-/

theorem jsGetOwn_setOwnProp_self (w : World) (o : ObjId) (k : String)
    (v : JSVal) : jsGetOwn (setOwnProp w o k v) o k = v := by
  simp [jsGetOwn, setOwnProp, getObj, alookup_aset_self]

theorem ownHas_setOwnProp_self (w : World) (o : ObjId) (k : String)
    (v : JSVal) : ownHas (setOwnProp w o k v) o k = true := by
  simp [ownHas, setOwnProp, getObj, alookup_aset_self]

/-- C1 (counterexample): the claim states that a host exception during the
indexed Set(o,i,v) makes the returned Maybe Nothing; at the concrete input
below (object 0, index 0, value prim 1, host exception undef) the bridged
indexed Set instead hands the caller a present boolean false. -/
theorem C1_counterexample :
    (Object_SetIndexed emptyWorld 0 0 (JSVal.prim 1) (some JSVal.undef)).2
        = some false ∧
    (Object_SetIndexed emptyWorld 0 0 (JSVal.prim 1) (some JSVal.undef)).2
        ≠ none := by
  constructor
  · rfl
  · intro h
    simp [Object_SetIndexed] at h

/-- C1 (amended): for the indexed Delete a host exception does yield
Nothing, but the indexed Set always returns a present boolean: Just true on
success and Just false when the host raised an exception, so a failing
indexed Set hands the caller a present false rather than Nothing. -/
theorem C1_indexed_exception (w : World) (o : ObjId) (i : Nat) (v : JSVal)
    (e : JSVal) :
    (Object_SetIndexed w o i v (some e)).2 = some false ∧
    (Object_DeleteIndexed w o i (some e)).2 = none ∧
    (Object_SetIndexed w o i v none).2 = some true ∧
    (Object_DeleteIndexed w o i none).2 = some true := by
  refine ⟨rfl, rfl, rfl, rfl⟩

/-- C2: if the named Set(o,k,v) succeeds (the returned Maybe is present),
then Get(o,k) returns v and Has(o,k) returns true, on the world the Set
produced. -/
theorem C2_set_get_has (w : World) (o : ObjId) (k : String) (v : JSVal)
    (b : Bool) (hsucc : (Object_Set w o k v).2 = some b) :
    Object_Get (Object_Set w o k v).1 o k = some v ∧
    Object_Has (Object_Set w o k v).1 o k = some true := by
  constructor
  · simp [Object_Get, Object_Set, jsGetOwn_setOwnProp_self]
  · simp [Object_Has, Object_Set, ownHas_setOwnProp_self]

/-- C2 (witness): concrete instance of C2_set_get_has on a fresh object. -/
theorem C2_witness :
    Object_Get (Object_Set emptyWorld 0 "a" (JSVal.prim 1)).1 0 "a"
        = some (JSVal.prim 1) ∧
    Object_Has (Object_Set emptyWorld 0 "a" (JSVal.prim 1)).1 0 "a"
        = some true :=
  C2_set_get_has emptyWorld 0 "a" (JSVal.prim 1) true (by decide)

/-- C3 (counterexample): the claim places HasRealNamedProperty and
HasRealIndexedProperty among the operations that abort when invoked; at the
concrete input below both compute a result (.ok) instead of aborting. -/
theorem C3_counterexample :
    Object_HasRealNamedProperty emptyWorld 0 "a" ≠ Outcome.abort ∧
    Object_HasRealIndexedProperty emptyWorld 0 0 ≠ Outcome.abort := by
  constructor
  · intro h
    simp [Object_HasRealNamedProperty] at h
  · intro h
    simp [Object_HasRealIndexedProperty, Object_HasRealNamedProperty] at h

/-- C3 (amended): CreateDataProperty (both overloads), DefineOwnProperty,
DefineProperty, GetOwnPropertyDescriptor, HasOwnProperty (both overloads),
ObjectProtoToString, SetIntegrityLevel, HasRealNamedCallbackProperty and the
GetRealNamedProperty family all fail fast by aborting when invoked; but
HasRealNamedProperty and HasRealIndexedProperty are implemented (via the
own-property-descriptor snippet) and compute a result rather than
aborting. -/
theorem C3_unported_abort (w : World) (o : ObjId) (k : String) (i : Nat)
    (v : JSVal) (attributes level : Nat) :
    Object_CreateDataProperty w o k v = Outcome.abort ∧
    Object_CreateDataProperty_indexed w o i v = Outcome.abort ∧
    Object_DefineOwnProperty w o k v attributes = Outcome.abort ∧
    Object_DefineProperty w o k = Outcome.abort ∧
    Object_GetOwnPropertyDescriptor w o k = Outcome.abort ∧
    Object_HasOwnProperty w o k = Outcome.abort ∧
    Object_HasOwnProperty_indexed w o i = Outcome.abort ∧
    Object_ObjectProtoToString w o = Outcome.abort ∧
    Object_SetIntegrityLevel w o level = Outcome.abort ∧
    Object_HasRealNamedCallbackProperty w o k = Outcome.abort ∧
    Object_GetRealNamedPropertyInPrototypeChain w o k = Outcome.abort ∧
    Object_GetRealNamedPropertyAttributesInPrototypeChain w o k
        = Outcome.abort ∧
    Object_GetRealNamedPropertyAttributes w o k = Outcome.abort ∧
    Object_GetRealNamedProperty w o k = Outcome.abort ∧
    Object_HasRealNamedProperty w o k = Outcome.ok (some (ownHas w o k)) ∧
    Object_HasRealIndexedProperty w o i
        = Outcome.ok (some (ownHas w o (toString i))) := by
  refine ⟨rfl, rfl, rfl, rfl, rfl, rfl, rfl, rfl, rfl, rfl, rfl, rfl, rfl,
    rfl, rfl, rfl⟩

/-- C10: SetPrototype always returns success with value true; it has no
failure path (JSObjectSetPrototype reports none), for every world, object
and prototype value. -/
theorem C10_set_prototype_total (w : World) (o : ObjId) (p : JSVal) :
    (Object_SetPrototype w o p).2 = some true := rfl

/-- C4 (code evaluated at the failing input): the claim states that after a
successful SetPrivate(o,k,v) the key k never appears in
GetOwnPropertyNames(o), the property living in the lazily created private
backing store.  On a fresh object (id 0) SetPrivate of key "priv" succeeds,
yet "priv" then appears among the own property names of the object itself,
while the backing-store object the call created (id 1, recorded in the
metadata) stays empty: the snippet `_1[_2] = _3` of SetPrivate binds _1 to
the object, not to the backing store. -/
theorem C4_private_key_leaks :
    (Object_SetPrivate emptyWorld 0 "priv" (JSVal.prim 5)).2 = some true ∧
    "priv" ∈ (Object_GetOwnPropertyNames
        (Object_SetPrivate emptyWorld 0 "priv" (JSVal.prim 5)).1 0).getD [] ∧
    (getPrivateInstance
        (Object_SetPrivate emptyWorld 0 "priv" (JSVal.prim 5)).1 0).bind
        InstanceWrap.m_private_properties = some 1 ∧
    (Object_GetOwnPropertyNames
        (Object_SetPrivate emptyWorld 0 "priv" (JSVal.prim 5)).1 1).getD []
        = [] := by
  refine ⟨rfl, ?_, rfl, rfl⟩
  decide

/-- C5 (counterexample): the claim states that a pending exception present
in the scheduled-exception cell before the accessor invocation handler runs
is still pending after, when the callback raises nothing; at the concrete
input below (pending prim 9, a callback that neither throws nor schedules)
the cell is empty afterwards. -/
theorem C5_counterexample :
    (accessorInvocationHandler (some (JSVal.prim 9)) 0
        { throws := none, schedules := none,
          retval := JSVal.undef }).postScheduled ≠ some (JSVal.prim 9) := by
  decide

/-- C5 (amended): the accessor invocation handler overwrites the
scheduled-exception cell with the hole sentinel on entry without
snapshotting it (the snapshot/restore in the source is commented out), so
its outcome is independent of the previously pending exception; when the
callback does not throw through the catch scope the cell is empty
afterwards (a scheduled exception having been moved to the host exception
out-parameter), and when it does throw the cell holds whatever the callback
scheduled.  A pending exception present before the call is never
restored. -/
theorem C5_cell_not_restored (preScheduled : Option JSVal)
    (argumentCount : Nat) (eff : CallbackEffect) :
    accessorInvocationHandler preScheduled argumentCount eff
        = accessorInvocationHandler none argumentCount eff ∧
    (accessorInvocationHandler preScheduled argumentCount eff).postScheduled
        = (match eff.throws with
           | some _ => eff.schedules
           | none => none) := by
  obtain ⟨ts, ss, rv⟩ := eff
  cases ts with
  | none =>
      cases ss with
      | none => exact ⟨rfl, rfl⟩
      | some e => exact ⟨rfl, rfl⟩
  | some e => exact ⟨rfl, rfl⟩

/-- C6 (counterexample): the claim states that with a non-null getter
callback and a null setter callback, SetAccessor installs a getter-only
definition; at that concrete input the installed definition also carries a
setter (the synthetic delete-and-reassign function). -/
theorem C6_counterexample :
    (Object_SetAccessor_install true false).2.setSlot ≠ none ∧
    (Object_SetAccessor_install true false).2.setSlot
        = some SetterSlot.replacer := by
  constructor
  · intro h
    simp [Object_SetAccessor_install, defineAccessorSnippet] at h
  · rfl

/-- C6 (amended): SetAccessor always deletes any existing own property of
the name first, and installs via Object.defineProperty: with both callbacks
non-null a getter-and-setter definition, with only the setter non-null a
setter-only definition, but with only the getter non-null a definition
carrying the getter together with a synthetic setter that deletes the
property and reassigns it (not a getter-only definition). -/
theorem C6_define_cases :
    (∀ g s : Bool, (Object_SetAccessor_install g s).1 = true) ∧
    (Object_SetAccessor_install true true).2
        = { getSlot := some (), setSlot := some SetterSlot.accessorFn,
            configurable := true } ∧
    (Object_SetAccessor_install false true).2
        = { getSlot := none, setSlot := some SetterSlot.accessorFn,
            configurable := true } ∧
    (Object_SetAccessor_install true false).2
        = { getSlot := some (), setSlot := some SetterSlot.replacer,
            configurable := true } := by
  refine ⟨fun g s => ?_, rfl, rfl, rfl⟩
  cases g <;> cases s <;> rfl

/-- C7: on an object with no private backing store (its metadata record, if
any, has no private-properties object), HasPrivate returns Just false,
GetPrivate returns the (present) undefined value, and DeletePrivate leaves
the world unchanged and returns Just false; none of the three reports an
error (all return present values). -/
theorem C7_no_backing_store (w : World) (o : ObjId) (k : String)
    (h : (getPrivateInstance w o).bind InstanceWrap.m_private_properties
        = none) :
    Object_HasPrivate w o k = some false ∧
    Object_GetPrivate w o k = some JSVal.undef ∧
    Object_DeletePrivate w o k = (w, some false) := by
  cases hw : getPrivateInstance w o with
  | none =>
      simp [Object_HasPrivate, Object_GetPrivate, Object_DeletePrivate, hw]
  | some wr =>
      rw [hw] at h
      have hp : wr.m_private_properties = none := h
      simp [Object_HasPrivate, Object_GetPrivate, Object_DeletePrivate, hw, hp]

/-- C7 (witness): concrete instance of C7_no_backing_store on a fresh
world. -/
theorem C7_witness :
    Object_HasPrivate emptyWorld 0 "p" = some false ∧
    Object_GetPrivate emptyWorld 0 "p" = some JSVal.undef ∧
    Object_DeletePrivate emptyWorld 0 "p" = (emptyWorld, some false) :=
  C7_no_backing_store emptyWorld 0 "p" rfl

/-- A world holding one fresh ArrayBuffer object (id 0) with no metadata
record. -/
def wC8buf : World :=
  { objs := [(0, { props := [], proto := JSVal.null,
                   kind := ObjKind.arrayBuffer })],
    wraps := [], nextId := 1, nextHash := 1 }

/-- A world holding one plain object (id 0) with a two-slot metadata
record. -/
def wC8 : World :=
  { objs := [(0, defaultHostObject)],
    wraps := [(0, { m_num_internal_fields := 2,
                    m_internal_fields := [none, none],
                    m_private_properties := none, m_hash := 1,
                    m_object_template := none })],
    nextId := 1, nextHash := 2 }

/-- A world with object 0 whose prototype is object 1, object 1 having a
metadata record carrying template chain [3] and a non-object prototype. -/
def wC9 : World :=
  { objs := [(0, { props := [], proto := JSVal.obj 1, kind := ObjKind.plain }),
             (1, { props := [], proto := JSVal.undef, kind := ObjKind.plain })],
    wraps := [(1, { m_num_internal_fields := 0, m_internal_fields := [],
                    m_private_properties := none, m_hash := 1,
                    m_object_template := some [3] })],
    nextId := 2, nextHash := 2 }

/-- C8 (counterexample): the claim states that for index >=
InternalFieldCount(o) the write is a no-op; on a fresh ArrayBuffer (below,
object 0, no metadata record) InternalFieldCount reports 0 and reading
field 0 gives an empty handle, yet SetInternalField(o,0,v) registers the
default record on demand (SetInternalField checks IsArrayBuffer, unlike
InternalFieldCount which checks only IsArrayBufferView) and stores v, which
reading field 0 then returns. -/
theorem C8_counterexample :
    (Object_InternalFieldCount wC8buf 0).2 = 0 ∧
    Object_SlowGetInternalField wC8buf 0 0 = none ∧
    Object_SlowGetInternalField
        (Object_SetInternalField wC8buf 0 0 (JSVal.prim 7)) 0 0
        = some (JSVal.prim 7) := by
  refine ⟨rfl, rfl, ?_⟩
  decide

/-- C8 (amended): for every object that already has a metadata record (with
well-formed slot storage), InternalFieldCount reports the declared count
without touching the world, an in-range SetInternalField followed by reading
the same field returns the written value, every other slot is unaffected by
a write, and an out-of-range write is a no-op on the whole world.  For
objects without a record the claim fails: a fresh ArrayBuffer registers the
record on demand inside SetInternalField (see the counterexample). -/
theorem C8_internal_fields (w : World) (o : ObjId) (index : Nat) (v : JSVal)
    (wr : InstanceWrap) (hw : getPrivateInstance w o = some wr)
    (hlen : wr.m_internal_fields.length = wr.m_num_internal_fields) :
    Object_InternalFieldCount w o = (w, wr.m_num_internal_fields) ∧
    (index < wr.m_num_internal_fields →
       Object_SlowGetInternalField (Object_SetInternalField w o index v) o
           index = some v) ∧
    (∀ j : Nat, j ≠ index →
       Object_SlowGetInternalField (Object_SetInternalField w o index v) o j
           = Object_SlowGetInternalField w o j) ∧
    (wr.m_num_internal_fields ≤ index →
       Object_SetInternalField w o index v = w) := by
  have hset : Object_SetInternalField w o index v =
      if index < wr.m_num_internal_fields then
        setWrap w o
          { wr with
            m_internal_fields := lset wr.m_internal_fields index (some v) }
      else w := by
    simp [Object_SetInternalField, hw]
  have hgp2 : getPrivateInstance
      (setWrap w o
        { wr with
          m_internal_fields := lset wr.m_internal_fields index (some v) }) o
      = some { wr with
               m_internal_fields := lset wr.m_internal_fields index (some v) } := by
    simp [getPrivateInstance, setWrap, alookup_aset_self]
  refine ⟨?_, ?_, ?_, ?_⟩
  · simp [Object_InternalFieldCount, hw]
  · intro hlt
    rw [hset, if_pos hlt]
    simp [Object_SlowGetInternalField, hgp2, hlt]
    rw [lgetD_lset_self]
    rw [hlen]
    exact hlt
  · intro j hj
    by_cases hlt : index < wr.m_num_internal_fields
    · rw [hset, if_pos hlt]
      by_cases hjlt : j < wr.m_num_internal_fields
      · simp [Object_SlowGetInternalField, hgp2, hw, hjlt]
        rw [lgetD_lset_other _ _ _ _ _ hj]
      · simp [Object_SlowGetInternalField, hgp2, hw, hjlt]
    · rw [hset, if_neg hlt]
  · intro hge
    rw [hset, if_neg (Nat.not_lt.mpr hge)]

/-- C8 (witness): concrete instance of C8_internal_fields on an object with
a two-slot metadata record: the count is read back, slot 0 holds the written
value, and an out-of-range write at index 5 leaves the world unchanged. -/
theorem C8_witness :
    Object_InternalFieldCount wC8 0 = (wC8, 2) ∧
    Object_SlowGetInternalField
        (Object_SetInternalField wC8 0 0 (JSVal.prim 5)) 0 0
        = some (JSVal.prim 5) ∧
    Object_SetInternalField wC8 0 5 (JSVal.prim 6) = wC8 := by
  refine ⟨?_, ?_, ?_⟩
  · exact (C8_internal_fields wC8 0 0 (JSVal.prim 5) _ rfl rfl).1
  · exact (C8_internal_fields wC8 0 0 (JSVal.prim 5) _ rfl rfl).2.1 (by decide)
  · exact (C8_internal_fields wC8 0 5 (JSVal.prim 6) _ rfl rfl).2.2.2
      (by decide)

/-- C9: given the finite prototype chain `l` the host walk visits from the
start value (finite and acyclic by host-engine construction), the walker
terminates for every fuel bound exceeding the chain length and returns the
first object of the chain whose template chain contains the target
template, or none when the walk runs off to a non-object without a
match. -/
theorem C9_find_first_match (w : World) (v : JSVal) (tmpl : Nat)
    (l : List ObjId) (fuel : Nat) (hc : PrototypeChain w v l)
    (hf : l.length < fuel) :
    Object_FindInstanceInPrototypeChain w v tmpl fuel
        = l.find? (fun o => templateChainContains w o tmpl) := by
  induction hc generalizing fuel with
  | base v2 hv =>
      cases fuel with
      | zero => exact absurd hf (by simp)
      | succ f =>
          cases v2 with
          | obj o => simp [JSVal.isObj] at hv
          | undef => simp [Object_FindInstanceInPrototypeChain]
          | null => simp [Object_FindInstanceInPrototypeChain]
          | prim n => simp [Object_FindInstanceInPrototypeChain]
  | step o rest hrest ih =>
      cases fuel with
      | zero => exact absurd hf (by simp)
      | succ f =>
          have hf2 : rest.length < f := by
            simp [List.length_cons] at hf
            omega
          by_cases hp : templateChainContains w o tmpl
          · simp [Object_FindInstanceInPrototypeChain, hp,
              List.find?_cons_of_pos]
          · simp [Object_FindInstanceInPrototypeChain, hp,
              List.find?_cons_of_neg, ih f hf2]

/-- C9 (witness): concrete instance of C9_find_first_match: object 0 has
prototype object 1, whose metadata carries template chain [3]; searching
for template 3 from object 0 finds object 1. -/
theorem C9_witness :
    Object_FindInstanceInPrototypeChain wC9 (JSVal.obj 0) 3 3 = some 1 := by
  have hbase : PrototypeChain wC9 (getObj wC9 1).proto [] :=
    PrototypeChain.base _ (by decide)
  have h1 : PrototypeChain wC9 (JSVal.obj 1) [1] :=
    PrototypeChain.step 1 [] hbase
  have h1b : PrototypeChain wC9 (getObj wC9 0).proto [1] := h1
  have h0 : PrototypeChain wC9 (JSVal.obj 0) [0, 1] :=
    PrototypeChain.step 0 [1] h1b
  rw [C9_find_first_match wC9 (JSVal.obj 0) 3 [0, 1] 3 h0 (by decide)]
  decide
